import Mathlib

/-!
Verification development for the RAG chatbot orchestration core
(`src/core/vector_store.py`, `src/core/conversation_manager.py`,
`src/core/rag_engine.py`).

The Python code is shallowly embedded: pure functions become Lean
functions, the persistent Chroma collection state becomes an explicit
`ChromaStore` value threaded through the vector-store operations, and the
`try`/`except` blocks of the conversation manager become `PyResult`-valued
functions with explicit fault-injection parameters standing for the spots
where a collaborator call may raise.  Python `str` operations are modelled
on `List Char` (ASCII reading of `str.isalnum`, `str.strip`, `str.lower`).
-/

/-- Characters kept verbatim by `VectorStoreManager._sanitize_collection_name`:
`c.isalnum() or c in "-_"` (ASCII model of Python `str.isalnum`). -/
def keepChar (c : Char) : Bool := c.isAlphanum || c == '-' || c == '_'

/-- Model of Python `str.strip()` on the character list of a string:
drop whitespace from both ends. -/
def stripChars (l : List Char) : List Char :=
  ((l.dropWhile Char.isWhitespace).reverse.dropWhile Char.isWhitespace).reverse

/-- `sanitized = "".join(c if c.isalnum() or c in "-_" else "_" for c in name.strip())` -/
def sanitizeStep1 (name : List Char) : List Char :=
  (stripChars name).map (fun c => if keepChar c then c else '_')

/-- `if sanitized and not sanitized[0].isalnum(): sanitized = "kb_" + sanitized` -/
def sanitizeStep2 : List Char → List Char
  | [] => []
  | c :: cs => if c.isAlphanum then c :: cs else 'k' :: 'b' :: '_' :: c :: cs

/-- `if not sanitized: sanitized = "default_kb"` -/
def sanitizeStep3 (l : List Char) : List Char :=
  if l.isEmpty then "default_kb".data else l

/-- Character-list form of `VectorStoreManager._sanitize_collection_name`,
ending with `return sanitized.lower()`. -/
def sanitizeCore (name : List Char) : List Char :=
  (sanitizeStep3 (sanitizeStep2 (sanitizeStep1 name))).map Char.toLower

/-- `VectorStoreManager._sanitize_collection_name` on strings. -/
def sanitize_collection_name (name : String) : String :=
  ⟨sanitizeCore name.data⟩

theorem toLower_eq_of_not_upper (c : Char) (h : ¬(c.toNat ≥ 65 ∧ c.toNat ≤ 90)) :
    c.toLower = c := by
  simp [Char.toLower, h]

theorem toLower_eq_ofNat (c : Char) (h : c.toNat ≥ 65 ∧ c.toNat ≤ 90) :
    c.toLower = Char.ofNat (c.toNat + 32) := by
  simp [Char.toLower, h]

theorem keepChar_ofNat_lower (n : Nat) (h1 : 65 ≤ n) (h2 : n ≤ 90) :
    keepChar (Char.ofNat (n + 32)) = true := by
  interval_cases n <;> decide

theorem isAlphanum_ofNat_lower (n : Nat) (h1 : 65 ≤ n) (h2 : n ≤ 90) :
    (Char.ofNat (n + 32)).isAlphanum = true := by
  interval_cases n <;> decide

theorem toLower_ofNat_lower (n : Nat) (h1 : 65 ≤ n) (h2 : n ≤ 90) :
    (Char.ofNat (n + 32)).toLower = Char.ofNat (n + 32) := by
  interval_cases n <;> decide

theorem keepChar_toLower (c : Char) (h : keepChar c = true) :
    keepChar c.toLower = true := by
  by_cases hc : c.toNat ≥ 65 ∧ c.toNat ≤ 90
  · rw [toLower_eq_ofNat c hc]; exact keepChar_ofNat_lower _ hc.1 hc.2
  · rw [toLower_eq_of_not_upper c hc]; exact h

theorem isAlphanum_toLower (c : Char) (h : c.isAlphanum = true) :
    c.toLower.isAlphanum = true := by
  by_cases hc : c.toNat ≥ 65 ∧ c.toNat ≤ 90
  · rw [toLower_eq_ofNat c hc]; exact isAlphanum_ofNat_lower _ hc.1 hc.2
  · rw [toLower_eq_of_not_upper c hc]; exact h

theorem toLower_toLower (c : Char) : c.toLower.toLower = c.toLower := by
  by_cases hc : c.toNat ≥ 65 ∧ c.toNat ≤ 90
  · rw [toLower_eq_ofNat c hc]; exact toLower_ofNat_lower _ hc.1 hc.2
  · rw [toLower_eq_of_not_upper c hc]; exact toLower_eq_of_not_upper c hc

theorem keepChar_not_whitespace (c : Char) (h : keepChar c = true) :
    c.isWhitespace = false := by
  by_contra hw
  have hw' : c.isWhitespace = true := by
    cases hws : c.isWhitespace
    · exact absurd hws hw
    · rfl
  have hmem : ((c = ' ' ∨ c = '\t') ∨ c = '\r') ∨ c = '\n' := by
    simpa [Char.isWhitespace] using hw'
  rcases hmem with ((h1 | h1) | h1) | h1 <;> subst h1 <;> exact absurd h (by decide)

theorem dropWhile_eq_self_of_none (p : Char → Bool) (l : List Char)
    (h : ∀ c ∈ l, p c = false) : l.dropWhile p = l := by
  cases l with
  | nil => rfl
  | cons a as => simp [List.dropWhile_cons, h a (List.mem_cons_self a as)]

theorem stripChars_eq_self (l : List Char) (h : ∀ c ∈ l, c.isWhitespace = false) :
    stripChars l = l := by
  unfold stripChars
  rw [dropWhile_eq_self_of_none _ _ h]
  rw [dropWhile_eq_self_of_none _ _ (fun c hc => h c (List.mem_reverse.mp hc))]
  exact List.reverse_reverse l

theorem map_keep_eq_self (l : List Char) (h : ∀ c ∈ l, keepChar c = true) :
    l.map (fun c => if keepChar c then c else '_') = l := by
  induction l with
  | nil => rfl
  | cons a as ih =>
    simp only [List.map_cons, h a (List.mem_cons_self a as), if_true, List.cons.injEq,
      true_and]
    exact ih fun c hc => h c (List.mem_cons_of_mem a hc)

theorem map_toLower_eq_self (l : List Char) (h : ∀ c ∈ l, c.toLower = c) :
    l.map Char.toLower = l := by
  induction l with
  | nil => rfl
  | cons a as ih =>
    simp only [List.map_cons, h a (List.mem_cons_self a as), List.cons.injEq, true_and]
    exact ih fun c hc => h c (List.mem_cons_of_mem a hc)

theorem mem_sanitizeStep1_keep (name : List Char) (c : Char)
    (hc : c ∈ sanitizeStep1 name) : keepChar c = true := by
  unfold sanitizeStep1 at hc
  rcases List.mem_map.mp hc with ⟨a, _, ha⟩
  by_cases hk : keepChar a = true
  · rw [if_pos hk] at ha; rwa [ha] at hk
  · rw [if_neg hk] at ha; rw [← ha]; decide

theorem mem_sanitizeStep2 (l : List Char) (c : Char) (hc : c ∈ sanitizeStep2 l) :
    c ∈ l ∨ c = 'k' ∨ c = 'b' ∨ c = '_' := by
  cases l with
  | nil => simp [sanitizeStep2] at hc
  | cons a as =>
    simp only [sanitizeStep2] at hc
    by_cases ha : a.isAlphanum = true
    · rw [if_pos ha] at hc; exact Or.inl hc
    · rw [if_neg ha] at hc
      simp only [List.mem_cons] at hc
      rcases hc with h | h | h | h | h
      · exact Or.inr (Or.inl h)
      · exact Or.inr (Or.inr (Or.inl h))
      · exact Or.inr (Or.inr (Or.inr h))
      · exact Or.inl (by rw [h]; exact List.mem_cons_self a as)
      · exact Or.inl (List.mem_cons_of_mem a h)

theorem sanitizeStep2_head (l : List Char) (h : l ≠ []) :
    ∃ c cs, sanitizeStep2 l = c :: cs ∧ c.isAlphanum = true := by
  cases l with
  | nil => exact absurd rfl h
  | cons a as =>
    by_cases ha : a.isAlphanum = true
    · exact ⟨a, as, by simp only [sanitizeStep2]; rw [if_pos ha], ha⟩
    · exact ⟨'k', 'b' :: '_' :: a :: as, by simp only [sanitizeStep2]; rw [if_neg ha], by decide⟩

theorem sanitizeCore_props (name : List Char) :
    sanitizeCore name ≠ [] ∧
    (∀ c ∈ sanitizeCore name, keepChar c = true ∧ c.toLower = c) ∧
    (∃ c cs, sanitizeCore name = c :: cs ∧ c.isAlphanum = true) := by
  by_cases h1 : sanitizeStep1 name = []
  · have hval : sanitizeCore name = "default_kb".data := by
      unfold sanitizeCore
      rw [h1]
      decide
    rw [hval]
    refine ⟨by decide, by decide, 'd', ['e','f','a','u','l','t','_','k','b'], by decide, by decide⟩
  · obtain ⟨c, cs, h2eq, hcal⟩ := sanitizeStep2_head _ h1
    have hval : sanitizeCore name = c.toLower :: cs.map Char.toLower := by
      unfold sanitizeCore sanitizeStep3
      rw [h2eq]
      simp [List.isEmpty]
    have hmem : ∀ x ∈ sanitizeCore name, ∃ y, y ∈ sanitizeStep2 (sanitizeStep1 name) ∧ x = y.toLower := by
      intro x hx
      have hx2 : x ∈ (sanitizeStep2 (sanitizeStep1 name)).map Char.toLower := by
        rw [h2eq, List.map_cons]
        rw [hval] at hx
        exact hx
      rcases List.mem_map.mp hx2 with ⟨y, hy, hxy⟩
      exact ⟨y, hy, hxy.symm⟩
    refine ⟨by rw [hval]; exact List.cons_ne_nil _ _, ?_, c.toLower, cs.map Char.toLower, hval,
      isAlphanum_toLower c hcal⟩
    intro x hx
    obtain ⟨y, hy, hxy⟩ := hmem x hx
    have hkeep : keepChar y = true := by
      rcases mem_sanitizeStep2 _ _ hy with h | h | h | h
      · exact mem_sanitizeStep1_keep name y h
      · rw [h]; decide
      · rw [h]; decide
      · rw [h]; decide
    rw [hxy]
    exact ⟨keepChar_toLower y hkeep, toLower_toLower y⟩

theorem sanitizeCore_idem (name : List Char) :
    sanitizeCore (sanitizeCore name) = sanitizeCore name := by
  obtain ⟨hne, hall, c, cs, heq, hcal⟩ := sanitizeCore_props name
  have hstep1 : sanitizeStep1 (sanitizeCore name) = sanitizeCore name := by
    unfold sanitizeStep1
    rw [stripChars_eq_self _ (fun x hx => keepChar_not_whitespace x (hall x hx).1)]
    exact map_keep_eq_self _ (fun x hx => (hall x hx).1)
  have hstep2 : sanitizeStep2 (sanitizeCore name) = sanitizeCore name := by
    rw [heq]; simp only [sanitizeStep2]; rw [if_pos hcal]
  have hstep3 : sanitizeStep3 (sanitizeCore name) = sanitizeCore name := by
    unfold sanitizeStep3
    rw [heq]
    simp [List.isEmpty]
  show (sanitizeStep3 (sanitizeStep2 (sanitizeStep1 (sanitizeCore name)))).map Char.toLower = _
  rw [hstep1, hstep2, hstep3]
  exact map_toLower_eq_self _ (fun x hx => (hall x hx).2)

/-- C2: the collection-name sanitization is idempotent and total, never
returns an empty string, and on the three sample inputs from the spec
produces exactly the expected sanitized keys. -/
theorem C2_sanitize_idempotent_total :
    (∀ x : String, sanitize_collection_name (sanitize_collection_name x) = sanitize_collection_name x) ∧
    (∀ x : String, 0 < (sanitize_collection_name x).length) ∧
    sanitize_collection_name "Test KB" = "test_kb" ∧
    sanitize_collection_name "" = "default_kb" ∧
    sanitize_collection_name "123 Numbers" = "123_numbers" := by
  refine ⟨?_, ?_, by decide, by decide, by decide⟩
  · intro x
    unfold sanitize_collection_name
    exact congrArg String.mk (sanitizeCore_idem x.data)
  · intro x
    show 0 < (sanitizeCore x.data).length
    exact List.length_pos.mpr (sanitizeCore_props x.data).1

/-- A retrieved/stored document chunk: `page_content` plus the two metadata
fields the engine reads (`metadata.get('source', ...)`, `metadata.get('page', '')`).
A missing `page` key and Python's falsy default `''` are both `none`. -/
structure Document where
  page_content : String
  source : Option String
  page : Option Int
deriving DecidableEq

/-- Persistent ChromaDB state: the collections as (collection name, chunk count)
pairs, in creation order.  This models the embedding + vector-index
collaborator of the spec (`count`/`delete`/add over named collections). -/
abbrev ChromaStore := List (String × Nat)

/-- Look up a collection by name. -/
def findCollection : ChromaStore → String → Option Nat
  | [], _ => none
  | e :: s, key => if e.1 = key then some e.2 else findCollection s key

/-- `Chroma(collection_name=key, persist_directory=...)`: opens the collection,
creating an empty one if it does not exist yet. -/
def chromaOpen (s : ChromaStore) (key : String) : ChromaStore :=
  match findCollection s key with
  | some _ => s
  | none => s ++ [(key, 0)]

/-- `collection.count()` of the named collection (0 if absent). -/
def collectionCount (s : ChromaStore) (key : String) : Nat :=
  (findCollection s key).getD 0

/-- `collection.delete()`: removes the named collection from the store. -/
def collectionDelete : ChromaStore → String → ChromaStore
  | [], _ => []
  | e :: s, key => if e.1 = key then collectionDelete s key else e :: collectionDelete s key

/-- `vector_store.add_documents(documents)`: adds `n` chunks to the named
collection's count. -/
def addDocs : ChromaStore → String → Nat → ChromaStore
  | [], _, _ => []
  | e :: s, key, n => if e.1 = key then (e.1, e.2 + n) :: s else e :: addDocs s key n

/-- `VectorStoreManager.knowledge_base_exists`: probes by opening the
collection, treats count 0 as absent and deletes the (possibly
probe-created) empty collection before returning. -/
def knowledge_base_exists (s : ChromaStore) (name : String) : Bool × ChromaStore :=
  let collection_name := sanitize_collection_name name
  let s1 := chromaOpen s collection_name
  if collectionCount s1 collection_name = 0 then
    (false, collectionDelete s1 collection_name)
  else (true, s1)

inductive CreateError where
  | invalidName
  | alreadyExists
  | noDocuments
deriving DecidableEq

/-- `VectorStoreManager.create_knowledge_base`: validates the name, checks
existence (note: the check runs on the already-sanitized collection name and
itself cleans up empty artifacts), rejects an empty document list, then
creates the collection and adds all documents.  Returns the new store and
the collection name the returned Chroma handle is bound to. -/
def create_knowledge_base (s : ChromaStore) (name : String) (documents : List Document) :
    Except CreateError (ChromaStore × String) :=
  if name = "" ∨ stripChars name.data = [] then .error .invalidName
  else
    let collection_name := sanitize_collection_name name
    let ex := knowledge_base_exists s collection_name
    if ex.1 then .error .alreadyExists
    else if documents.isEmpty then .error .noDocuments
    else
      let s2 := chromaOpen ex.2 collection_name
      .ok (addDocs s2 collection_name documents.length, collection_name)

/-- `VectorStoreManager.delete_knowledge_base`: returns `false` (not an
error) when the knowledge base does not exist, otherwise deletes it. -/
def delete_knowledge_base (s : ChromaStore) (name : String) : Bool × ChromaStore :=
  let collection_name := sanitize_collection_name name
  let ex := knowledge_base_exists s collection_name
  if ex.1 = false then (false, ex.2)
  else (true, collectionDelete (chromaOpen ex.2 collection_name) collection_name)

/-- Python `str.title()` over characters: upper-case a letter that does not
follow a letter, lower-case one that does (ASCII model). -/
def pyTitleAux : Bool → List Char → List Char
  | _, [] => []
  | prevAlpha, c :: cs =>
    (if c.isAlpha then (if prevAlpha then c.toLower else c.toUpper) else c) ::
      pyTitleAux c.isAlpha cs

/-- `collection_name.replace('_', ' ').title()`. -/
def displayNameOf (key : String) : String :=
  ⟨pyTitleAux false (key.data.map (fun c => if c = '_' then ' ' else c))⟩

structure KBInfo where
  name : String
  collection_name : String
  document_count : Nat
  created_at : Nat
deriving DecidableEq

/-- `VectorStoreManager.list_knowledge_bases`: every collection with a
positive count, as display records, sorted by display name. -/
def list_knowledge_bases (s : ChromaStore) : List KBInfo :=
  let infos := s.filterMap (fun e =>
    if 0 < e.2 then some ⟨displayNameOf e.1, e.1, e.2, 0⟩ else none)
  infos.mergeSort (fun a b => a.name ≤ b.name)

theorem sanitize_collection_name_idem (x : String) :
    sanitize_collection_name (sanitize_collection_name x) = sanitize_collection_name x := by
  unfold sanitize_collection_name
  exact congrArg String.mk (sanitizeCore_idem x.data)

theorem findCollection_none_of_all (s : ChromaStore) (key : String)
    (h : ∀ e ∈ s, e.1 ≠ key) : findCollection s key = none := by
  induction s with
  | nil => rfl
  | cons a as ih =>
    simp only [findCollection]
    rw [if_neg (h a (List.mem_cons_self a as))]
    exact ih fun e he => h e (List.mem_cons_of_mem a he)

theorem findCollection_append_none (s t : ChromaStore) (key : String)
    (h : findCollection s key = none) :
    findCollection (s ++ t) key = findCollection t key := by
  induction s with
  | nil => rfl
  | cons a as ih =>
    simp only [findCollection] at h
    simp only [List.cons_append, findCollection]
    by_cases ha : a.1 = key
    · rw [if_pos ha] at h; exact absurd h (by simp)
    · rw [if_neg ha] at h
      rw [if_neg ha]
      exact ih h

theorem collectionDelete_of_none (s : ChromaStore) (key : String)
    (h : findCollection s key = none) : collectionDelete s key = s := by
  induction s with
  | nil => rfl
  | cons a as ih =>
    simp only [findCollection] at h
    simp only [collectionDelete]
    by_cases ha : a.1 = key
    · rw [if_pos ha] at h; exact absurd h (by simp)
    · rw [if_neg ha] at h
      rw [if_neg ha, ih h]

theorem collectionDelete_append (s t : ChromaStore) (key : String) :
    collectionDelete (s ++ t) key = collectionDelete s key ++ collectionDelete t key := by
  induction s with
  | nil => rfl
  | cons a as ih =>
    simp only [List.cons_append, collectionDelete, List.append_eq]
    by_cases ha : a.1 = key
    · rw [if_pos ha, if_pos ha, ih]
    · rw [if_neg ha, if_neg ha, List.cons_append, ih]

theorem findCollection_collectionDelete (s : ChromaStore) (key : String) :
    findCollection (collectionDelete s key) key = none := by
  induction s with
  | nil => rfl
  | cons a as ih =>
    simp only [collectionDelete]
    by_cases ha : a.1 = key
    · rw [if_pos ha]; exact ih
    · rw [if_neg ha]
      simp only [findCollection]
      rw [if_neg ha]
      exact ih

theorem addDocs_append_none (s t : ChromaStore) (key : String) (n : Nat)
    (h : findCollection s key = none) :
    addDocs (s ++ t) key n = s ++ addDocs t key n := by
  induction s with
  | nil => rfl
  | cons a as ih =>
    simp only [findCollection] at h
    simp only [List.cons_append, addDocs, List.append_eq]
    by_cases ha : a.1 = key
    · rw [if_pos ha] at h; exact absurd h (by simp)
    · rw [if_neg ha] at h
      rw [if_neg ha, ih h]

theorem chromaOpen_of_none (s : ChromaStore) (key : String)
    (h : findCollection s key = none) : chromaOpen s key = s ++ [(key, 0)] := by
  unfold chromaOpen; rw [h]

theorem chromaOpen_of_some (s : ChromaStore) (key : String) (n : Nat)
    (h : findCollection s key = some n) : chromaOpen s key = s := by
  unfold chromaOpen; rw [h]

theorem knowledge_base_exists_eq (s : ChromaStore) (name : String) :
    knowledge_base_exists s name =
      if 0 < collectionCount s (sanitize_collection_name name) then (true, s)
      else (false, collectionDelete s (sanitize_collection_name name)) := by
  simp only [knowledge_base_exists]
  cases hf : findCollection s (sanitize_collection_name name) with
  | none =>
    have hc0 : collectionCount s (sanitize_collection_name name) = 0 := by
      unfold collectionCount; rw [hf]; rfl
    rw [chromaOpen_of_none _ _ hf]
    have hfind : findCollection (s ++ [(sanitize_collection_name name, 0)])
        (sanitize_collection_name name) = some 0 := by
      rw [findCollection_append_none _ _ _ hf]
      simp [findCollection]
    have hc1 : collectionCount (s ++ [(sanitize_collection_name name, 0)])
        (sanitize_collection_name name) = 0 := by
      unfold collectionCount; rw [hfind]; rfl
    rw [hc1, hc0, collectionDelete_append]
    simp [collectionDelete]
  | some n =>
    rw [chromaOpen_of_some _ _ _ hf]
    have hc : collectionCount s (sanitize_collection_name name) = n := by
      unfold collectionCount; rw [hf]; rfl
    by_cases hn : n = 0
    · subst hn
      rw [hc]
      simp
    · rw [hc]
      rw [if_neg hn, if_pos (Nat.pos_of_ne_zero hn)]

theorem delete_knowledge_base_eq (s : ChromaStore) (name : String) :
    delete_knowledge_base s name =
      (decide (0 < collectionCount s (sanitize_collection_name name)),
       collectionDelete s (sanitize_collection_name name)) := by
  simp only [delete_knowledge_base]
  rw [knowledge_base_exists_eq, sanitize_collection_name_idem]
  by_cases hc : 0 < collectionCount s (sanitize_collection_name name)
  · rw [if_pos hc]
    simp only [decide_eq_true hc]
    have hf : ∃ n, findCollection s (sanitize_collection_name name) = some n ∧ 0 < n := by
      unfold collectionCount at hc
      cases hff : findCollection s (sanitize_collection_name name) with
      | none => rw [hff] at hc; simp at hc
      | some n => rw [hff] at hc; exact ⟨n, rfl, hc⟩
    obtain ⟨n, hff, _⟩ := hf
    rw [chromaOpen_of_some _ _ _ hff]
    simp
  · rw [if_neg hc]
    simp [hc]

theorem collectionDelete_filter_pos (s : ChromaStore) (key : String)
    (hnd : (s.map Prod.fst).Nodup) (h : findCollection s key = some 0) :
    (collectionDelete s key).filter (fun e => 0 < e.2) = s.filter (fun e => 0 < e.2) := by
  induction s with
  | nil => rfl
  | cons a as ih =>
    simp only [List.map_cons, List.nodup_cons] at hnd
    simp only [findCollection] at h
    simp only [collectionDelete]
    by_cases ha : a.1 = key
    · rw [if_pos ha]
      rw [if_pos ha] at h
      have ha2 : a.2 = 0 := by
        injection h
      have hnone : findCollection as key = none := by
        apply findCollection_none_of_all
        intro e he heq
        exact hnd.1 (by rw [ha, ← heq]; exact List.mem_map_of_mem Prod.fst he)
      rw [collectionDelete_of_none _ _ hnone, List.filter_cons]
      simp [ha2]
    · rw [if_neg ha]
      rw [if_neg ha] at h
      rw [List.filter_cons, List.filter_cons]
      by_cases hp : 0 < a.2
      · rw [if_pos (decide_eq_true hp), if_pos (decide_eq_true hp), ih hnd.2 h]
      · rw [if_neg (by simpa using hp), if_neg (by simpa using hp), ih hnd.2 h]

/-- C3: the existence check returns true exactly when the collection derived
from the name has a strictly positive chunk count, and the probe leaves the
set of persisted non-empty collections unchanged (any empty artifact it
creates or encounters under that key is removed before returning). -/
theorem C3_exists_probe (s : ChromaStore) (name : String)
    (hnd : (s.map Prod.fst).Nodup) :
    ((knowledge_base_exists s name).1 = true ↔
      0 < collectionCount s (sanitize_collection_name name)) ∧
    ((knowledge_base_exists s name).2.filter (fun e => 0 < e.2) =
      s.filter (fun e => 0 < e.2)) := by
  rw [knowledge_base_exists_eq]
  by_cases hc : 0 < collectionCount s (sanitize_collection_name name)
  · rw [if_pos hc]
    exact ⟨⟨fun _ => hc, fun _ => rfl⟩, rfl⟩
  · rw [if_neg hc]
    refine ⟨⟨fun hfalse => absurd hfalse (by simp), fun hpos => absurd hpos hc⟩, ?_⟩
    cases hf : findCollection s (sanitize_collection_name name) with
    | none => rw [collectionDelete_of_none _ _ hf]
    | some n =>
      have hn : n = 0 := by
        unfold collectionCount at hc
        rw [hf] at hc
        simpa using Nat.eq_zero_of_not_pos hc
      subst hn
      exact collectionDelete_filter_pos s _ hnd hf

/-- Witness for C3 at a concrete store and name. -/
theorem C3_exists_probe_witness :
    ((knowledge_base_exists [("kb_a", 2), ("zz", 0)] "kb_a").1 = true ↔
      0 < collectionCount [("kb_a", 2), ("zz", 0)] (sanitize_collection_name "kb_a")) ∧
    ((knowledge_base_exists [("kb_a", 2), ("zz", 0)] "kb_a").2.filter (fun e => 0 < e.2) =
      [("kb_a", 2), ("zz", 0)].filter (fun e => 0 < e.2)) :=
  C3_exists_probe [("kb_a", 2), ("zz", 0)] "kb_a" (by decide)

theorem create_ok_elim (s : ChromaStore) (name : String) (documents : List Document)
    (s' : ChromaStore) (key : String)
    (h : create_knowledge_base s name documents = .ok (s', key)) :
    key = sanitize_collection_name name ∧
    documents ≠ [] ∧
    ∃ s1, findCollection s1 key = none ∧ s' = s1 ++ [(key, documents.length)] := by
  simp only [create_knowledge_base] at h
  by_cases h1 : name = "" ∨ stripChars name.data = []
  · rw [if_pos h1] at h
    exact absurd h (by simp)
  · rw [if_neg h1] at h
    by_cases h2 : (knowledge_base_exists s (sanitize_collection_name name)).1 = true
    · rw [if_pos h2] at h
      exact absurd h (by simp)
    · rw [if_neg h2] at h
      by_cases h3 : documents.isEmpty = true
      · rw [if_pos h3] at h
        exact absurd h (by simp)
      · rw [if_neg h3] at h
        simp only [Except.ok.injEq, Prod.mk.injEq] at h
        obtain ⟨hs', hkey⟩ := h
        have hdocs : documents ≠ [] := by
          intro hnil
          rw [hnil] at h3
          exact h3 rfl
        have hfalse : (knowledge_base_exists s (sanitize_collection_name name)).1 = false := by
          cases hb : (knowledge_base_exists s (sanitize_collection_name name)).1
          · rfl
          · exact absurd hb h2
        have hstate : (knowledge_base_exists s (sanitize_collection_name name)).2 =
            collectionDelete s (sanitize_collection_name name) := by
          rw [knowledge_base_exists_eq, sanitize_collection_name_idem] at hfalse ⊢
          by_cases hc : 0 < collectionCount s (sanitize_collection_name name)
          · rw [if_pos hc] at hfalse
            exact absurd hfalse (by simp)
          · rw [if_neg hc]
        have hfind : findCollection ((knowledge_base_exists s (sanitize_collection_name name)).2)
            (sanitize_collection_name name) = none := by
          rw [hstate]
          exact findCollection_collectionDelete _ _
        subst hkey
        refine ⟨rfl, hdocs, (knowledge_base_exists s (sanitize_collection_name name)).2,
          hfind, ?_⟩
        rw [← hs']
        rw [chromaOpen_of_none _ _ hfind]
        rw [addDocs_append_none _ _ _ _ hfind]
        simp [addDocs]

/-- C7: knowledge-base existence round-trips through create, list and
delete: after a successful create, the existence check is true and the
listing contains an entry for the collection carrying the chunk count;
after delete the existence check is false and a second delete returns
false without error. -/
theorem C7_roundtrip (s : ChromaStore) (name : String) (documents : List Document)
    (s' : ChromaStore) (key : String)
    (h : create_knowledge_base s name documents = .ok (s', key)) :
    (knowledge_base_exists s' name).1 = true ∧
    (∃ info ∈ list_knowledge_bases s',
        info.collection_name = sanitize_collection_name name ∧
        info.document_count = documents.length) ∧
    (delete_knowledge_base s' name).1 = true ∧
    (knowledge_base_exists (delete_knowledge_base s' name).2 name).1 = false ∧
    (delete_knowledge_base (delete_knowledge_base s' name).2 name).1 = false := by
  obtain ⟨hkey, hdocs, s1, hfind, hs'⟩ := create_ok_elim s name documents s' key h
  subst hkey
  subst hs'
  have hlen : 0 < documents.length := List.length_pos.mpr hdocs
  have hfind2 : findCollection (s1 ++ [(sanitize_collection_name name, documents.length)])
      (sanitize_collection_name name) = some documents.length := by
    rw [findCollection_append_none _ _ _ hfind]
    simp [findCollection]
  have hcount2 : collectionCount (s1 ++ [(sanitize_collection_name name, documents.length)])
      (sanitize_collection_name name) = documents.length := by
    unfold collectionCount; rw [hfind2]; rfl
  have hcount1 : collectionCount s1 (sanitize_collection_name name) = 0 := by
    unfold collectionCount; rw [hfind]; rfl
  have hdel : collectionDelete (s1 ++ [(sanitize_collection_name name, documents.length)])
      (sanitize_collection_name name) = s1 := by
    rw [collectionDelete_append, collectionDelete_of_none _ _ hfind]
    simp [collectionDelete]
  refine ⟨?_, ?_, ?_, ?_, ?_⟩
  · rw [knowledge_base_exists_eq, hcount2, if_pos hlen]
  · refine ⟨⟨displayNameOf (sanitize_collection_name name), sanitize_collection_name name,
      documents.length, 0⟩, ?_, rfl, rfl⟩
    simp only [list_knowledge_bases]
    apply ((List.mergeSort_perm _ _).mem_iff).mpr
    apply List.mem_filterMap.mpr
    refine ⟨(sanitize_collection_name name, documents.length), by simp, ?_⟩
    rw [if_pos hlen]
  · rw [delete_knowledge_base_eq, hcount2]
    exact decide_eq_true hlen
  · have hd1 : delete_knowledge_base
        (s1 ++ [(sanitize_collection_name name, documents.length)]) name = (true, s1) := by
      rw [delete_knowledge_base_eq, hcount2, hdel, decide_eq_true hlen]
    rw [hd1]
    show (knowledge_base_exists s1 name).1 = false
    rw [knowledge_base_exists_eq, hcount1, if_neg (lt_irrefl 0)]
  · have hd1 : delete_knowledge_base
        (s1 ++ [(sanitize_collection_name name, documents.length)]) name = (true, s1) := by
      rw [delete_knowledge_base_eq, hcount2, hdel, decide_eq_true hlen]
    rw [hd1]
    show (delete_knowledge_base s1 name).1 = false
    rw [delete_knowledge_base_eq, hcount1]
    rfl

/-- Witness for C7: a concrete create/list/delete round-trip. -/
theorem C7_roundtrip_witness :
    (knowledge_base_exists [("kb1", 1)] "KB1").1 = true ∧
    (∃ info ∈ list_knowledge_bases [("kb1", 1)],
        info.collection_name = sanitize_collection_name "KB1" ∧
        info.document_count = [(⟨"text", none, none⟩ : Document)].length) ∧
    (delete_knowledge_base [("kb1", 1)] "KB1").1 = true ∧
    (knowledge_base_exists (delete_knowledge_base [("kb1", 1)] "KB1").2 "KB1").1 = false ∧
    (delete_knowledge_base (delete_knowledge_base [("kb1", 1)] "KB1").2 "KB1").1 = false :=
  C7_roundtrip [] "KB1" [⟨"text", none, none⟩] [("kb1", 1)] "kb1" rfl

/-- C8: create fails with an error when the name is empty or
whitespace-only, when a non-empty collection with the derived key already
exists, and when the chunk list is empty; for a non-empty name with no
pre-existing collection of the derived key and a non-empty chunk list it
succeeds, persists all the given chunks, and returns a handle bound to the
new collection. -/
theorem C8_create_contract (s : ChromaStore) (name : String) (documents : List Document) :
    ((name = "" ∨ stripChars name.data = []) →
      create_knowledge_base s name documents = .error .invalidName) ∧
    (0 < collectionCount s (sanitize_collection_name name) →
      ∃ e, create_knowledge_base s name documents = .error e) ∧
    (documents = [] → ∃ e, create_knowledge_base s name documents = .error e) ∧
    (¬(name = "" ∨ stripChars name.data = []) →
      findCollection s (sanitize_collection_name name) = none →
      documents ≠ [] →
      create_knowledge_base s name documents =
        .ok (s ++ [(sanitize_collection_name name, documents.length)],
             sanitize_collection_name name) ∧
      collectionCount (s ++ [(sanitize_collection_name name, documents.length)])
        (sanitize_collection_name name) = documents.length) := by
  refine ⟨?_, ?_, ?_, ?_⟩
  · intro h1
    simp only [create_knowledge_base]
    rw [if_pos h1]
  · intro hpos
    by_cases h1 : name = "" ∨ stripChars name.data = []
    · exact ⟨.invalidName, by simp only [create_knowledge_base]; rw [if_pos h1]⟩
    · refine ⟨.alreadyExists, ?_⟩
      simp only [create_knowledge_base]
      rw [if_neg h1]
      have hex : (knowledge_base_exists s (sanitize_collection_name name)).1 = true := by
        rw [knowledge_base_exists_eq, sanitize_collection_name_idem, if_pos hpos]
      rw [if_pos hex]
  · intro hd
    subst hd
    by_cases h1 : name = "" ∨ stripChars name.data = []
    · exact ⟨.invalidName, by simp only [create_knowledge_base]; rw [if_pos h1]⟩
    · by_cases h2 : (knowledge_base_exists s (sanitize_collection_name name)).1 = true
      · exact ⟨.alreadyExists, by simp only [create_knowledge_base]; rw [if_neg h1, if_pos h2]⟩
      · refine ⟨.noDocuments, ?_⟩
        simp only [create_knowledge_base]
        rw [if_neg h1, if_neg h2]
        rfl
  · intro h1 hfind hdocs
    have hc0 : collectionCount s (sanitize_collection_name name) = 0 := by
      unfold collectionCount; rw [hfind]; rfl
    have hkbe : knowledge_base_exists s (sanitize_collection_name name) = (false, s) := by
      rw [knowledge_base_exists_eq, sanitize_collection_name_idem, hc0,
        if_neg (lt_irrefl 0), collectionDelete_of_none _ _ hfind]
    have hne : documents.isEmpty = false := by
      cases documents with
      | nil => exact absurd rfl hdocs
      | cons d ds => rfl
    constructor
    · simp only [create_knowledge_base]
      rw [if_neg h1, hkbe]
      rw [if_neg (by simp : ¬(((false, s) : Bool × ChromaStore).1 = true))]
      rw [if_neg (by simp [hne] : ¬(documents.isEmpty = true))]
      show Except.ok (addDocs (chromaOpen s (sanitize_collection_name name))
        (sanitize_collection_name name) documents.length, sanitize_collection_name name) = _
      rw [chromaOpen_of_none _ _ hfind, addDocs_append_none _ _ _ _ hfind]
      simp [addDocs]
    · unfold collectionCount
      rw [findCollection_append_none _ _ _ hfind]
      simp [findCollection]

/-- Witness for C8: each contract clause at concrete inputs. -/
theorem C8_create_contract_witness :
    create_knowledge_base [] "  " [⟨"t", none, none⟩] = .error .invalidName ∧
    (∃ e, create_knowledge_base [("my_kb", 2)] "My KB" [⟨"t", none, none⟩] = .error e) ∧
    (∃ e, create_knowledge_base [] "My KB" [] = .error e) ∧
    create_knowledge_base [] "My KB" [⟨"t", none, none⟩] =
      .ok ([("my_kb", 1)], "my_kb") :=
  ⟨(C8_create_contract [] "  " [⟨"t", none, none⟩]).1 (Or.inr (by decide)),
   (C8_create_contract [("my_kb", 2)] "My KB" [⟨"t", none, none⟩]).2.1 (by decide),
   (C8_create_contract [] "My KB" []).2.2.1 rfl,
   ((C8_create_contract [] "My KB" [⟨"t", none, none⟩]).2.2.2
     (by decide) rfl (by decide)).1⟩

/-- A chat/session message: role plus content.  The wall-clock timestamp
attached by the source is not modelled. -/
structure Message where
  role : String
  content : String
deriving DecidableEq

/-- The `AppConfig` fields relevant to the orchestration core
(`utils/config.py`). -/
structure AppConfig where
  chunk_size : Nat
  chunk_overlap : Nat
  max_conversation_history : Nat
  max_file_size_mb : Nat
deriving DecidableEq

/-- The default configuration values of `utils/config.py`. -/
def default_config : AppConfig :=
  { chunk_size := 1000
    chunk_overlap := 200
    max_conversation_history := 3
    max_file_size_mb := 200 }

/-- `ConversationManager` state: the LangChain `memory.chat_memory.messages`
backing list (roles "human"/"ai") and the `session_messages` display log
(roles "user"/"assistant"). -/
structure ConversationManager where
  config : AppConfig
  memory_size : Nat
  chat_memory_messages : List Message
  session_messages : List Message
deriving DecidableEq

/-- `ConversationManager.__init__`: `memory_size = max_conversation_history - 1`,
both logs empty. -/
def ConversationManager.init (config : AppConfig) : ConversationManager :=
  { config := config
    memory_size := config.max_conversation_history - 1
    chat_memory_messages := []
    session_messages := [] }

/-- Outcome of a Python operation: a normal return, or an exception leaving
the try-block together with the state as mutated so far. -/
inductive PyResult (α : Type) where
  | ret (value : α)
  | exn (message : String) (value : α)
deriving DecidableEq

/-- The carried value/state of a `PyResult`. -/
def PyResult.val {α : Type} : PyResult α → α
  | .ret a => a
  | .exn _ a => a

/-- Try-block of `ConversationManager.add_message`.  `fault = some i`
injects an exception in place of the i-th mutating statement
(0: chat `add_user_message`, 1: chat `add_ai_message`, 2: session extend);
statements executed before the fault have already mutated the state, as in
Python. -/
def add_message_try (fault : Option Nat) (mgr : ConversationManager)
    (human_message ai_message : String) : PyResult ConversationManager :=
  if fault = some 0 then .exn "add_user_message failed" mgr else
  let mgr1 := { mgr with
    chat_memory_messages := mgr.chat_memory_messages ++ [⟨"human", human_message⟩] }
  if fault = some 1 then .exn "add_ai_message failed" mgr1 else
  let mgr2 := { mgr1 with
    chat_memory_messages := mgr1.chat_memory_messages ++ [⟨"ai", ai_message⟩] }
  if fault = some 2 then .exn "session extend failed" mgr2 else
  let mgr3 := { mgr2 with
    session_messages := mgr2.session_messages ++
      [⟨"user", human_message⟩, ⟨"assistant", ai_message⟩] }
  let max_messages := mgr3.config.max_conversation_history
  let mgr4 :=
    if mgr3.session_messages.length > max_messages then
      { mgr3 with session_messages :=
          mgr3.session_messages.drop (mgr3.session_messages.length - max_messages) }
    else mgr3
  .ret mgr4

/-- `ConversationManager.add_message`: the except clause logs and absorbs
any exception from the try-block. -/
def add_message_f (fault : Option Nat) (mgr : ConversationManager)
    (human_message ai_message : String) : PyResult ConversationManager :=
  match add_message_try fault mgr human_message ai_message with
  | .ret m => .ret m
  | .exn _e m => .ret m

/-- Fault-free `add_message`. -/
def add_message (mgr : ConversationManager) (human_message ai_message : String) :
    ConversationManager :=
  (add_message_f none mgr human_message ai_message).val

/-- Try-block of `add_user_message` (0: chat add, 1: session append);
eviction drops exactly one entry (`self.session_messages[1:]`). -/
def add_user_message_try (fault : Option Nat) (mgr : ConversationManager)
    (message : String) : PyResult ConversationManager :=
  if fault = some 0 then .exn "add_user_message failed" mgr else
  let mgr1 := { mgr with
    chat_memory_messages := mgr.chat_memory_messages ++ [⟨"human", message⟩] }
  if fault = some 1 then .exn "session append failed" mgr1 else
  let mgr2 := { mgr1 with
    session_messages := mgr1.session_messages ++ [⟨"user", message⟩] }
  let mgr3 :=
    if mgr2.session_messages.length > mgr2.config.max_conversation_history then
      { mgr2 with session_messages := mgr2.session_messages.drop 1 }
    else mgr2
  .ret mgr3

/-- `add_user_message` with its except clause. -/
def add_user_message_f (fault : Option Nat) (mgr : ConversationManager)
    (message : String) : PyResult ConversationManager :=
  match add_user_message_try fault mgr message with
  | .ret m => .ret m
  | .exn _e m => .ret m

/-- Fault-free `add_user_message`. -/
def add_user_message (mgr : ConversationManager) (message : String) : ConversationManager :=
  (add_user_message_f none mgr message).val

/-- Try-block of `add_ai_message` (0: chat add, 1: session append). -/
def add_ai_message_try (fault : Option Nat) (mgr : ConversationManager)
    (message : String) : PyResult ConversationManager :=
  if fault = some 0 then .exn "add_ai_message failed" mgr else
  let mgr1 := { mgr with
    chat_memory_messages := mgr.chat_memory_messages ++ [⟨"ai", message⟩] }
  if fault = some 1 then .exn "session append failed" mgr1 else
  let mgr2 := { mgr1 with
    session_messages := mgr1.session_messages ++ [⟨"assistant", message⟩] }
  let mgr3 :=
    if mgr2.session_messages.length > mgr2.config.max_conversation_history then
      { mgr2 with session_messages := mgr2.session_messages.drop 1 }
    else mgr2
  .ret mgr3

/-- `add_ai_message` with its except clause. -/
def add_ai_message_f (fault : Option Nat) (mgr : ConversationManager)
    (message : String) : PyResult ConversationManager :=
  match add_ai_message_try fault mgr message with
  | .ret m => .ret m
  | .exn _e m => .ret m

/-- Fault-free `add_ai_message`. -/
def add_ai_message (mgr : ConversationManager) (message : String) : ConversationManager :=
  (add_ai_message_f none mgr message).val

/-- Try-block of `clear_conversation` (0: memory clear, 1: session clear). -/
def clear_conversation_try (fault : Option Nat) (mgr : ConversationManager) :
    PyResult ConversationManager :=
  if fault = some 0 then .exn "memory clear failed" mgr else
  let mgr1 := { mgr with chat_memory_messages := [] }
  if fault = some 1 then .exn "session clear failed" mgr1 else
  .ret { mgr1 with session_messages := [] }

/-- `clear_conversation` with its except clause. -/
def clear_conversation_f (fault : Option Nat) (mgr : ConversationManager) :
    PyResult ConversationManager :=
  match clear_conversation_try fault mgr with
  | .ret m => .ret m
  | .exn _e m => .ret m

/-- Fault-free `clear_conversation`. -/
def clear_conversation (mgr : ConversationManager) : ConversationManager :=
  (clear_conversation_f none mgr).val

/-- `get_conversation_history`: the except clause returns `[]`. -/
def get_conversation_history_f (fault : Bool) (mgr : ConversationManager) :
    PyResult (List Message) :=
  if fault then .ret [] else .ret mgr.chat_memory_messages

/-- One line of the RAG context: `Human:`/`Assistant:` by message class,
other message classes are skipped. -/
def fmt_history_line (m : Message) : Option String :=
  if m.role = "human" then some ("Human: " ++ m.content)
  else if m.role = "ai" then some ("Assistant: " ++ m.content)
  else none

/-- `get_context_for_rag`.  The slice `messages[-self.memory_size*2:]` is
the whole list when `memory_size * 2 = 0` (Python `lst[-0:]` is `lst`),
otherwise the last `memory_size * 2` entries.  The except clause returns
`""`. -/
def get_context_for_rag_f (fault : Bool) (mgr : ConversationManager) : PyResult String :=
  if fault then .ret "" else
  let messages := mgr.chat_memory_messages
  if messages.isEmpty then .ret "" else
  let k := mgr.memory_size * 2
  let recent := if k = 0 then messages else messages.drop (messages.length - k)
  .ret (String.intercalate "\n" (recent.filterMap fmt_history_line))

/-- Fault-free `get_context_for_rag`. -/
def get_context_for_rag (mgr : ConversationManager) : String :=
  (get_context_for_rag_f false mgr).val

/-- Try-block of `load_session_messages`: clear, replay the user/assistant
pairs through `add_message`, then append a trailing unmatched user message
directly to both logs with no eviction.  `fault = some 0` raises right
after the clear (e.g. a malformed message dictionary in the rebuild loop),
`fault = some 1` right after the paired replay. -/
def load_session_messages_try (fault : Option Nat) (mgr : ConversationManager)
    (messages : List Message) : PyResult ConversationManager :=
  let mgr0 := clear_conversation mgr
  if fault = some 0 then .exn "malformed message" mgr0 else
  let user_messages := (messages.filter (fun m => m.role = "user")).map Message.content
  let ai_messages := (messages.filter (fun m => m.role = "assistant")).map Message.content
  let mgr1 := (user_messages.zip ai_messages).foldl (fun m p => add_message m p.1 p.2) mgr0
  if fault = some 1 then .exn "pending append failed" mgr1 else
  let min_length := min user_messages.length ai_messages.length
  let lastu := user_messages.getLastD ""
  let mgr2 :=
    if user_messages.length > min_length then
      { mgr1 with
        chat_memory_messages := mgr1.chat_memory_messages ++ [⟨"human", lastu⟩]
        session_messages := mgr1.session_messages ++ [⟨"user", lastu⟩] }
    else mgr1
  .ret mgr2

/-- `load_session_messages` with its except clause. -/
def load_session_messages_f (fault : Option Nat) (mgr : ConversationManager)
    (messages : List Message) : PyResult ConversationManager :=
  match load_session_messages_try fault mgr messages with
  | .ret m => .ret m
  | .exn _e m => .ret m

/-- Fault-free `load_session_messages`. -/
def load_session_messages (mgr : ConversationManager) (messages : List Message) :
    ConversationManager :=
  (load_session_messages_f none mgr messages).val

theorem add_message_val (mgr : ConversationManager) (u a : String) :
    add_message mgr u a =
      (if (mgr.session_messages ++ [Message.mk "user" u, Message.mk "assistant" a]).length >
          mgr.config.max_conversation_history then
        { mgr with
          chat_memory_messages :=
            (mgr.chat_memory_messages ++ [Message.mk "human" u]) ++ [Message.mk "ai" a]
          session_messages :=
            (mgr.session_messages ++ [Message.mk "user" u, Message.mk "assistant" a]).drop
            ((mgr.session_messages ++ [Message.mk "user" u, Message.mk "assistant" a]).length -
              mgr.config.max_conversation_history) }
      else
        { mgr with
          chat_memory_messages :=
            (mgr.chat_memory_messages ++ [Message.mk "human" u]) ++ [Message.mk "ai" a]
          session_messages :=
            mgr.session_messages ++ [Message.mk "user" u, Message.mk "assistant" a] }) :=
  rfl

theorem add_user_message_val (mgr : ConversationManager) (m : String) :
    add_user_message mgr m =
      (if (mgr.session_messages ++ [Message.mk "user" m]).length >
          mgr.config.max_conversation_history then
        { mgr with
          chat_memory_messages := mgr.chat_memory_messages ++ [Message.mk "human" m]
          session_messages := (mgr.session_messages ++ [Message.mk "user" m]).drop 1 }
      else
        { mgr with
          chat_memory_messages := mgr.chat_memory_messages ++ [Message.mk "human" m]
          session_messages := mgr.session_messages ++ [Message.mk "user" m] }) :=
  rfl

theorem add_ai_message_val (mgr : ConversationManager) (m : String) :
    add_ai_message mgr m =
      (if (mgr.session_messages ++ [Message.mk "assistant" m]).length >
          mgr.config.max_conversation_history then
        { mgr with
          chat_memory_messages := mgr.chat_memory_messages ++ [Message.mk "ai" m]
          session_messages := (mgr.session_messages ++ [Message.mk "assistant" m]).drop 1 }
      else
        { mgr with
          chat_memory_messages := mgr.chat_memory_messages ++ [Message.mk "ai" m]
          session_messages := mgr.session_messages ++ [Message.mk "assistant" m] }) :=
  rfl

theorem clear_conversation_val (mgr : ConversationManager) :
    clear_conversation mgr =
      { mgr with chat_memory_messages := [], session_messages := [] } :=
  rfl

theorem load_session_messages_val (mgr : ConversationManager) (msgs : List Message) :
    load_session_messages mgr msgs =
      (let user_messages := (msgs.filter (fun m => m.role = "user")).map Message.content
       let ai_messages := (msgs.filter (fun m => m.role = "assistant")).map Message.content
       let mgr1 := (user_messages.zip ai_messages).foldl (fun m p => add_message m p.1 p.2)
         (clear_conversation mgr)
       if user_messages.length > min user_messages.length ai_messages.length then
         { mgr1 with
           chat_memory_messages := mgr1.chat_memory_messages ++
             [Message.mk "human" (user_messages.getLastD "")]
           session_messages := mgr1.session_messages ++
             [Message.mk "user" (user_messages.getLastD "")] }
       else mgr1) :=
  rfl

theorem add_message_config (mgr : ConversationManager) (u a : String) :
    (add_message mgr u a).config = mgr.config := by
  rw [add_message_val]; split <;> rfl

theorem add_message_session_le (mgr : ConversationManager) (u a : String) :
    (add_message mgr u a).session_messages.length ≤ mgr.config.max_conversation_history := by
  rw [add_message_val]
  by_cases hc : (mgr.session_messages ++
      [Message.mk "user" u, Message.mk "assistant" a]).length >
      mgr.config.max_conversation_history
  · rw [if_pos hc]
    show ((mgr.session_messages ++
      [Message.mk "user" u, Message.mk "assistant" a]).drop
      ((mgr.session_messages ++
        [Message.mk "user" u, Message.mk "assistant" a]).length -
        mgr.config.max_conversation_history)).length ≤ mgr.config.max_conversation_history
    rw [List.length_drop]
    omega
  · rw [if_neg hc]
    show (mgr.session_messages ++
      [Message.mk "user" u, Message.mk "assistant" a]).length ≤
      mgr.config.max_conversation_history
    omega

theorem fold_add_message_config (l : List (String × String)) (m : ConversationManager) :
    (l.foldl (fun m p => add_message m p.1 p.2) m).config = m.config := by
  induction l generalizing m with
  | nil => rfl
  | cons p ps ih => rw [List.foldl_cons, ih, add_message_config]

theorem fold_add_message_session_le (l : List (String × String)) (m : ConversationManager)
    (h : m.session_messages.length ≤ m.config.max_conversation_history) :
    (l.foldl (fun m p => add_message m p.1 p.2) m).session_messages.length ≤
      m.config.max_conversation_history := by
  induction l generalizing m with
  | nil => exact h
  | cons p ps ih =>
    rw [List.foldl_cons]
    have h2 := ih (add_message m p.1 p.2)
      (by rw [add_message_config]; exact add_message_session_le m p.1 p.2)
    rw [add_message_config] at h2
    exact h2

/-- C4 counterexample: with the default cap 3, loading five messages whose
last user turn has no assistant reply leaves the display log with 4
entries, exceeding `max_conversation_history`. -/
theorem C4_counterexample :
    (load_session_messages (ConversationManager.init default_config)
      [Message.mk "user" "q1", Message.mk "assistant" "r1", Message.mk "user" "q2",
       Message.mk "assistant" "r2", Message.mk "user" "q3"]).session_messages.length = 4 ∧
    default_config.max_conversation_history = 3 := by
  constructor <;> rfl

/-- C4 (amended): `add_message` always leaves the display log within the
`max_conversation_history` cap and evicts only a front segment (oldest
first); `add_user_message` and `add_ai_message` append one entry and evict
exactly one entry from the head when the cap is exceeded, so a log within
the cap stays within it, while a log already over the cap stays at its
previous over-cap size; `clear_conversation` empties the log;
`load_session_messages` may leave up to `max_conversation_history + 1`
entries, because a trailing unmatched user turn is appended without
eviction. -/
theorem C4_display_log_bound_amended (mgr : ConversationManager) (u a m : String)
    (msgs : List Message) :
    ((add_message mgr u a).session_messages.length ≤ mgr.config.max_conversation_history ∧
      ∃ k, (add_message mgr u a).session_messages =
        (mgr.session_messages ++ [Message.mk "user" u, Message.mk "assistant" a]).drop k) ∧
    ((add_user_message mgr m).session_messages.length =
        (if mgr.session_messages.length + 1 > mgr.config.max_conversation_history
         then mgr.session_messages.length else mgr.session_messages.length + 1) ∧
      ∃ k, (add_user_message mgr m).session_messages =
        (mgr.session_messages ++ [Message.mk "user" m]).drop k) ∧
    ((add_ai_message mgr m).session_messages.length =
        (if mgr.session_messages.length + 1 > mgr.config.max_conversation_history
         then mgr.session_messages.length else mgr.session_messages.length + 1) ∧
      ∃ k, (add_ai_message mgr m).session_messages =
        (mgr.session_messages ++ [Message.mk "assistant" m]).drop k) ∧
    (clear_conversation mgr).session_messages = [] ∧
    (load_session_messages mgr msgs).session_messages.length ≤
      mgr.config.max_conversation_history + 1 := by
  have hSu : (mgr.session_messages ++ [Message.mk "user" m]).length =
      mgr.session_messages.length + 1 := by
    rw [List.length_append]
    rfl
  have hSa : (mgr.session_messages ++ [Message.mk "assistant" m]).length =
      mgr.session_messages.length + 1 := by
    rw [List.length_append]
    rfl
  refine ⟨⟨add_message_session_le mgr u a, ?_⟩, ⟨?_, ?_⟩, ⟨?_, ?_⟩, rfl, ?_⟩
  · rw [add_message_val]
    by_cases hc : (mgr.session_messages ++
        [Message.mk "user" u, Message.mk "assistant" a]).length >
        mgr.config.max_conversation_history
    · rw [if_pos hc]
      exact ⟨_, rfl⟩
    · rw [if_neg hc]
      exact ⟨0, (List.drop_zero _).symm⟩
  · rw [add_user_message_val]
    by_cases hc : mgr.session_messages.length + 1 > mgr.config.max_conversation_history
    · rw [if_pos (by rw [hSu]; exact hc), if_pos hc]
      show ((mgr.session_messages ++ [Message.mk "user" m]).drop 1).length =
        mgr.session_messages.length
      rw [List.length_drop, hSu]
      omega
    · rw [if_neg (by rw [hSu]; exact hc), if_neg hc]
      show (mgr.session_messages ++ [Message.mk "user" m]).length =
        mgr.session_messages.length + 1
      exact hSu
  · rw [add_user_message_val]
    by_cases hc : (mgr.session_messages ++ [Message.mk "user" m]).length >
        mgr.config.max_conversation_history
    · rw [if_pos hc]
      exact ⟨1, rfl⟩
    · rw [if_neg hc]
      exact ⟨0, (List.drop_zero _).symm⟩
  · rw [add_ai_message_val]
    by_cases hc : mgr.session_messages.length + 1 > mgr.config.max_conversation_history
    · rw [if_pos (by rw [hSa]; exact hc), if_pos hc]
      show ((mgr.session_messages ++ [Message.mk "assistant" m]).drop 1).length =
        mgr.session_messages.length
      rw [List.length_drop, hSa]
      omega
    · rw [if_neg (by rw [hSa]; exact hc), if_neg hc]
      show (mgr.session_messages ++ [Message.mk "assistant" m]).length =
        mgr.session_messages.length + 1
      exact hSa
  · rw [add_ai_message_val]
    by_cases hc : (mgr.session_messages ++ [Message.mk "assistant" m]).length >
        mgr.config.max_conversation_history
    · rw [if_pos hc]
      exact ⟨1, rfl⟩
    · rw [if_neg hc]
      exact ⟨0, (List.drop_zero _).symm⟩
  · rw [load_session_messages_val]
    have hfold : ((((msgs.filter (fun m => m.role = "user")).map Message.content).zip
        ((msgs.filter (fun m => m.role = "assistant")).map Message.content)).foldl
        (fun m p => add_message m p.1 p.2)
        (clear_conversation mgr)).session_messages.length ≤
        mgr.config.max_conversation_history :=
      fold_add_message_session_le _ (clear_conversation mgr) (Nat.zero_le _)
    simp only []
    split
    · simp only [List.length_append, List.length_cons, List.length_nil]
      omega
    · omega

/-- C5: with the default configuration (`maxConversationHistory = 3`),
three `add_message` exchanges from an empty memory leave exactly the most
recent 3 turns in the display log, while the model-facing window is sized
`max_conversation_history - 1 = 2` exchange pairs, strictly smaller than
the display log's cap. -/
theorem C5_default_eviction (u1 a1 u2 a2 u3 a3 : String) :
    (add_message (add_message (add_message (ConversationManager.init default_config) u1 a1)
        u2 a2) u3 a3).session_messages =
      [Message.mk "assistant" a2, Message.mk "user" u3, Message.mk "assistant" a3] ∧
    (add_message (add_message (add_message (ConversationManager.init default_config) u1 a1)
        u2 a2) u3 a3).session_messages.length = 3 ∧
    (ConversationManager.init default_config).memory_size =
      default_config.max_conversation_history - 1 ∧
    (ConversationManager.init default_config).memory_size = 2 ∧
    (ConversationManager.init default_config).memory_size <
      default_config.max_conversation_history := by
  refine ⟨?_, ?_, rfl, rfl, by decide⟩ <;> rfl

theorem get_context_for_rag_f_isRet (fault : Bool) (mgr : ConversationManager) :
    ∃ r, get_context_for_rag_f fault mgr = .ret r := by
  unfold get_context_for_rag_f
  split
  · exact ⟨_, rfl⟩
  · show ∃ r, (if mgr.chat_memory_messages.isEmpty = true then PyResult.ret ""
      else PyResult.ret (String.intercalate "\n" (List.filterMap fmt_history_line
        (if mgr.memory_size * 2 = 0 then mgr.chat_memory_messages
         else List.drop (mgr.chat_memory_messages.length - mgr.memory_size * 2)
           mgr.chat_memory_messages)))) = PyResult.ret r
    split
    · exact ⟨_, rfl⟩
    · exact ⟨_, rfl⟩

/-- C9 counterexample: an internal fault striking the second statement of
`add_message` (the chat `add_ai_message` call) is absorbed and the
operation returns normally, but the user turn added by the first statement
stays in chat memory: the operation is neither a no-op nor a neutral
default (the chat log of the returned state differs from the empty chat
log of the input state). -/
theorem C9_counterexample :
    add_message_f (some 1) (ConversationManager.init default_config) "q" "r" =
      .ret { ConversationManager.init default_config with
        chat_memory_messages := [Message.mk "human" "q"] } ∧
    (add_message_f (some 1)
      (ConversationManager.init default_config) "q" "r").val.chat_memory_messages =
      [Message.mk "human" "q"] ∧
    (ConversationManager.init default_config).chat_memory_messages = [] :=
  ⟨rfl, rfl, rfl⟩

/-- C9 (amended): no ConversationMemory operation propagates an exception,
for any state and any injected internal fault: every operation returns
normally (`PyResult.ret`); the getters degrade to the neutral defaults `[]`
and `""` under a fault; a fault hitting the first statement of a mutator
leaves the state unchanged (a no-op), while a fault striking after a
partial mutation leaves the already-executed statements in effect — there
is no rollback (e.g. a fault at the chat `add_ai_message` call inside
`add_message` keeps the just-added user turn in chat memory). -/
theorem C9_memory_never_raises (mgr : ConversationManager) (fault : Option Nat)
    (faultb : Bool) (u a m : String) (msgs : List Message) :
    (∃ r, add_message_f fault mgr u a = .ret r) ∧
    (∃ r, add_user_message_f fault mgr m = .ret r) ∧
    (∃ r, add_ai_message_f fault mgr m = .ret r) ∧
    (∃ r, clear_conversation_f fault mgr = .ret r) ∧
    (∃ r, load_session_messages_f fault mgr msgs = .ret r) ∧
    (∃ r, get_conversation_history_f faultb mgr = .ret r) ∧
    (∃ r, get_context_for_rag_f faultb mgr = .ret r) ∧
    get_conversation_history_f true mgr = .ret [] ∧
    get_context_for_rag_f true mgr = .ret "" ∧
    add_message_f (some 0) mgr u a = .ret mgr ∧
    add_user_message_f (some 0) mgr m = .ret mgr ∧
    add_ai_message_f (some 0) mgr m = .ret mgr ∧
    clear_conversation_f (some 0) mgr = .ret mgr ∧
    add_message_f (some 1) mgr u a =
      .ret { mgr with
        chat_memory_messages := mgr.chat_memory_messages ++ [Message.mk "human" u] } := by
  refine ⟨⟨(add_message_try fault mgr u a).val,
      by unfold add_message_f; cases add_message_try fault mgr u a <;> rfl⟩,
    ⟨(add_user_message_try fault mgr m).val,
      by unfold add_user_message_f; cases add_user_message_try fault mgr m <;> rfl⟩,
    ⟨(add_ai_message_try fault mgr m).val,
      by unfold add_ai_message_f; cases add_ai_message_try fault mgr m <;> rfl⟩,
    ⟨(clear_conversation_try fault mgr).val,
      by unfold clear_conversation_f; cases clear_conversation_try fault mgr <;> rfl⟩,
    ⟨(load_session_messages_try fault mgr msgs).val,
      by unfold load_session_messages_f; cases load_session_messages_try fault mgr msgs <;> rfl⟩,
    ?_, get_context_for_rag_f_isRet faultb mgr, rfl, rfl, rfl, rfl, rfl, rfl, rfl⟩
  cases faultb
  · exact ⟨_, rfl⟩
  · exact ⟨_, rfl⟩

/-- An event observable at the orchestrator boundary of
`RAGEngine.generate_response`: a fragment yielded to the caller, or a
committed exchange (`conversation_manager.add_message`). -/
inductive Event where
  | yield (fragment : String)
  | commit (user : String) (assistant : String)
deriving DecidableEq

def Event.isCommit : Event → Bool
  | .yield _ => false
  | .commit _ _ => true

/-- `RAGEngine._retrieve_documents`: the retrieval collaborator's outcome;
a failure is caught, logged, and turned into the empty result list. -/
def retrieve_documents (result : Except String (List Document)) : List Document :=
  match result with
  | .ok docs => docs
  | .error _ => []

/-- One entry of `RAGEngine._prepare_context`, at 1-based index `i`:
`[Source {i} - {source}{page_info}]:` followed by the content.  The page
annotation is omitted both for a missing page value and for the falsy page
number 0 (`page_info = f" (Page {page})" if page else ""`). -/
def format_doc_part (i : Nat) (doc : Document) : String :=
  let source := doc.source.getD ("Document " ++ toString i)
  let page_info :=
    match doc.page with
    | none => ""
    | some p => if p = 0 then "" else " (Page " ++ toString p ++ ")"
  "[Source " ++ toString i ++ " - " ++ source ++ page_info ++ "]:\n" ++
    doc.page_content ++ "\n"

/-- The enumerated context entries (`enumerate(documents, 1)`). -/
def context_parts (documents : List Document) : List String :=
  documents.enum.map (fun p => format_doc_part (p.1 + 1) p.2)

/-- `RAGEngine._prepare_context`: the fixed sentinel for an empty result
set, otherwise the newline-joined enumerated entries. -/
def prepare_context (documents : List Document) : String :=
  if documents.isEmpty then "No relevant context found in the knowledge base."
  else String.intercalate "\n" (context_parts documents)

/-- The prompt template of `RAGEngine._setup_retrieval_chain` with
`context`, `chat_history` and `question` substituted. -/
def format_prompt (context chat_history question : String) : String :=
  "You are a helpful AI assistant that answers questions based on the provided context and conversation history.\n\nContext from documents:\n"
    ++ context
    ++ "\n\nConversation history:\n"
    ++ chat_history
    ++ "\n\nCurrent question: "
    ++ question
    ++ "\n\nInstructions:\n1. Use the provided context to answer the question accurately\n2. If the context doesn\x27t contain relevant information, output the following verbatim: \"No relevant information found.\" \n3. Maintain conversation context from the history\n4. Be concise but comprehensive in your response\n5. If asked about previous parts of the conversation, refer to the chat history\n\nAnswer:"

/-- `RAGEngine._stream_llm_response`: formats the prompt and relays the
generation collaborator's fragments; an error raised by the collaborator
after a prefix of fragments is caught and converted into one final
user-visible error fragment.  The collaborator is a function from the
prompt to its fragment list plus an optional raised exception. -/
def stream_llm_response (llm : String → List String × Option String)
    (question context chat_history : String) : List String :=
  let formatted_prompt := format_prompt context chat_history question
  match llm formatted_prompt with
  | (fragments, none) => fragments
  | (fragments, some e) => fragments ++ ["Error generating response: " ++ e]

/-- `RAGEngine.generate_response`, as the sequence of boundary events it
produces plus the final memory state.  `fault = some (j, e)` models an
exception with message `e` raised inside the try-block after `j` fragments
were relayed to the caller; the except clause catches it, yields the
user-visible error message, and still commits the exchange to memory. -/
def generate_response (mgr : ConversationManager) (question : String)
    (retriever : Except String (List Document))
    (llm : String → List String × Option String)
    (fault : Option (Nat × String)) : List Event × ConversationManager :=
  let relevant_docs := retrieve_documents retriever
  let context := prepare_context relevant_docs
  let chat_history := get_context_for_rag mgr
  let chunks := stream_llm_response llm question context chat_history
  match fault with
  | none =>
      let response := String.join chunks
      (chunks.map Event.yield ++ [Event.commit question response],
        add_message mgr question response)
  | some (j, e) =>
      let error_message :=
        "I apologize, but I encountered an error while generating a response: " ++ e
      ((chunks.take j).map Event.yield ++
        [Event.yield error_message, Event.commit question error_message],
        add_message mgr question error_message)

theorem filter_isCommit_yields (frags : List String) (q a : String) :
    ((frags.map Event.yield ++ [Event.commit q a]).filter Event.isCommit) =
      [Event.commit q a] := by
  induction frags with
  | nil => rfl
  | cons f fs ih =>
    simp only [List.map_cons, List.cons_append, List.filter_cons]
    rw [if_neg (by simp [Event.isCommit])]
    exact ih

theorem add_message_chat (mgr : ConversationManager) (u a : String) :
    (add_message mgr u a).chat_memory_messages =
      mgr.chat_memory_messages ++ [Message.mk "human" u, Message.mk "ai" a] := by
  rw [add_message_val]
  split
  · show (mgr.chat_memory_messages ++ [Message.mk "human" u]) ++ [Message.mk "ai" a] = _
    rw [List.append_assoc]
    rfl
  · show (mgr.chat_memory_messages ++ [Message.mk "human" u]) ++ [Message.mk "ai" a] = _
    rw [List.append_assoc]
    rfl

/-- C1: for every question, after the fragment stream is exhausted —
normally or via a caught error — exactly one exchange is committed to the
bound memory, with the question as user turn and the accumulated response
(or the yielded error-message fragment) as assistant turn; the commit is
the last event of the trace, after all yields. -/
theorem C1_commit_exactly_once (mgr : ConversationManager) (question : String)
    (retriever : Except String (List Document))
    (llm : String → List String × Option String) (fault : Option (Nat × String)) :
    ∃ frags answer,
      (generate_response mgr question retriever llm fault).1 =
        frags.map Event.yield ++ [Event.commit question answer] ∧
      ((generate_response mgr question retriever llm fault).1.filter Event.isCommit).length
        = 1 ∧
      (generate_response mgr question retriever llm fault).2 =
        add_message mgr question answer ∧
      (generate_response mgr question retriever llm fault).2.chat_memory_messages =
        mgr.chat_memory_messages ++
          [Message.mk "human" question, Message.mk "ai" answer] ∧
      (fault = none → answer = String.join frags) ∧
      (∀ j e, fault = some (j, e) →
        answer = "I apologize, but I encountered an error while generating a response: "
          ++ e ∧
        frags.getLastD "" = answer) := by
  match fault with
  | none =>
      refine ⟨stream_llm_response llm question
        (prepare_context (retrieve_documents retriever)) (get_context_for_rag mgr),
        String.join (stream_llm_response llm question
          (prepare_context (retrieve_documents retriever)) (get_context_for_rag mgr)),
        rfl, ?_, rfl, add_message_chat mgr question _, fun _ => rfl,
        fun j e h => Option.noConfusion h⟩
      have htrace : (generate_response mgr question retriever llm none).1 =
          (stream_llm_response llm question
            (prepare_context (retrieve_documents retriever))
            (get_context_for_rag mgr)).map Event.yield ++
          [Event.commit question (String.join (stream_llm_response llm question
            (prepare_context (retrieve_documents retriever))
            (get_context_for_rag mgr)))] := rfl
      rw [htrace, filter_isCommit_yields]
      rfl
  | some (j, e) =>
      refine ⟨(stream_llm_response llm question
          (prepare_context (retrieve_documents retriever))
          (get_context_for_rag mgr)).take j ++
          ["I apologize, but I encountered an error while generating a response: " ++ e],
        "I apologize, but I encountered an error while generating a response: " ++ e,
        ?_, ?_, rfl, add_message_chat mgr question _,
        fun h => Option.noConfusion h, ?_⟩
      · show ((stream_llm_response llm question
          (prepare_context (retrieve_documents retriever))
          (get_context_for_rag mgr)).take j).map Event.yield ++
          [Event.yield ("I apologize, but I encountered an error while generating a response: " ++ e),
           Event.commit question ("I apologize, but I encountered an error while generating a response: " ++ e)] = _
        rw [List.map_append, List.append_assoc]
        rfl
      · have htrace : (generate_response mgr question retriever llm (some (j, e))).1 =
            (((stream_llm_response llm question
              (prepare_context (retrieve_documents retriever))
              (get_context_for_rag mgr)).take j) ++
              ["I apologize, but I encountered an error while generating a response: " ++ e]).map
                Event.yield ++
            [Event.commit question
              ("I apologize, but I encountered an error while generating a response: " ++ e)] := by
          show ((stream_llm_response llm question
            (prepare_context (retrieve_documents retriever))
            (get_context_for_rag mgr)).take j).map Event.yield ++
            [Event.yield ("I apologize, but I encountered an error while generating a response: " ++ e),
             Event.commit question ("I apologize, but I encountered an error while generating a response: " ++ e)] = _
          rw [List.map_append, List.append_assoc]
          rfl
        rw [htrace, filter_isCommit_yields]
        rfl
      · intro j2 e2 h
        injection h with h2
        injection h2 with hj he
        subst hj
        subst he
        exact ⟨rfl, List.getLastD_concat _ _ _⟩

/-- Witness for C1: a concrete faulted run of the orchestrator. -/
theorem C1_commit_exactly_once_witness :
    ∃ frags answer,
      (generate_response (ConversationManager.init default_config) "q" (.ok [])
        (fun _ => (["a ", "b"], none)) (some (1, "boom"))).1 =
        frags.map Event.yield ++ [Event.commit "q" answer] ∧
      ((generate_response (ConversationManager.init default_config) "q" (.ok [])
        (fun _ => (["a ", "b"], none)) (some (1, "boom"))).1.filter Event.isCommit).length
        = 1 ∧
      (generate_response (ConversationManager.init default_config) "q" (.ok [])
        (fun _ => (["a ", "b"], none)) (some (1, "boom"))).2 =
        add_message (ConversationManager.init default_config) "q" answer ∧
      (generate_response (ConversationManager.init default_config) "q" (.ok [])
        (fun _ => (["a ", "b"], none)) (some (1, "boom"))).2.chat_memory_messages =
        (ConversationManager.init default_config).chat_memory_messages ++
          [Message.mk "human" "q", Message.mk "ai" answer] ∧
      ((some (1, "boom") : Option (Nat × String)) = none → answer = String.join frags) ∧
      (∀ j e, (some (1, "boom") : Option (Nat × String)) = some (j, e) →
        answer = "I apologize, but I encountered an error while generating a response: "
          ++ e ∧
        frags.getLastD "" = answer) :=
  C1_commit_exactly_once (ConversationManager.init default_config) "q" (.ok [])
    (fun _ => (["a ", "b"], none)) (some (1, "boom"))

/-- C6: a failed retrieval yields the empty result set instead of
aborting; with zero retrieved chunks, context assembly returns the fixed
non-empty sentinel string and generation still proceeds (the trace still
streams the generated fragments and ends in the single commit); when
chunks are retrieved, each context entry is prefixed with its 1-based
source index. -/
theorem C6_zero_retrieval (err : String) (mgr : ConversationManager) (question : String)
    (llm : String → List String × Option String) (documents : List Document)
    (i : Nat) (h : i < (context_parts documents).length) :
    retrieve_documents (.error err) = [] ∧
    prepare_context [] = "No relevant context found in the knowledge base." ∧
    0 < (prepare_context []).length ∧
    (∃ frags answer,
      (generate_response mgr question (.error err) llm none).1 =
        frags.map Event.yield ++ [Event.commit question answer] ∧
      frags = stream_llm_response llm question (prepare_context [])
        (get_context_for_rag mgr)) ∧
    (∃ rest, (context_parts documents).get ⟨i, h⟩ =
      "[Source " ++ toString (i + 1) ++ rest) := by
  refine ⟨rfl, rfl, by decide, ?_, ?_⟩
  · exact ⟨stream_llm_response llm question (prepare_context [])
      (get_context_for_rag mgr),
      String.join (stream_llm_response llm question (prepare_context [])
        (get_context_for_rag mgr)), rfl, rfl⟩
  · have h2 : i < documents.length := by
      simpa [context_parts, List.enum_length] using h
    have hget : (context_parts documents).get ⟨i, h⟩ =
        format_doc_part (i + 1) (documents.get ⟨i, h2⟩) := by
      simp [context_parts, List.get_eq_getElem, List.getElem_map, List.getElem_enum]
    rw [hget]
    refine ⟨" - " ++ ((documents.get ⟨i, h2⟩).source.getD ("Document " ++ toString (i + 1))) ++
      (match (documents.get ⟨i, h2⟩).page with
        | none => ""
        | some p => if p = 0 then "" else " (Page " ++ toString p ++ ")") ++ "]:\n" ++
      (documents.get ⟨i, h2⟩).page_content ++ "\n", ?_⟩
    show "[Source " ++ toString (i + 1) ++ " - " ++
      ((documents.get ⟨i, h2⟩).source.getD ("Document " ++ toString (i + 1))) ++
      (match (documents.get ⟨i, h2⟩).page with
        | none => ""
        | some p => if p = 0 then "" else " (Page " ++ toString p ++ ")") ++ "]:\n" ++
      (documents.get ⟨i, h2⟩).page_content ++ "\n" = _
    simp [String.append_assoc]

/-- Witness for C6 at a concrete failed retrieval and document list. -/
theorem C6_zero_retrieval_witness :
    retrieve_documents (.error "boom") = [] ∧
    prepare_context [] = "No relevant context found in the knowledge base." ∧
    0 < (prepare_context []).length ∧
    (∃ frags answer,
      (generate_response (ConversationManager.init default_config) "q" (.error "boom")
        (fun _ => (["ok"], none)) none).1 =
        frags.map Event.yield ++ [Event.commit "q" answer] ∧
      frags = stream_llm_response (fun _ => (["ok"], none)) "q" (prepare_context [])
        (get_context_for_rag (ConversationManager.init default_config))) ∧
    (∃ rest, (context_parts [Document.mk "body" none none]).get ⟨0, by decide⟩ =
      "[Source " ++ toString (0 + 1) ++ rest) :=
  C6_zero_retrieval "boom" (ConversationManager.init default_config) "q"
    (fun _ => (["ok"], none)) [Document.mk "body" none none] 0 (by decide)

/-- C10: in context assembly, a chunk whose page metadata value is the
integer 0 is formatted with no page annotation — exactly as if the page
metadata were absent — while any other present page value p is annotated
with " (Page p)". -/
theorem C10_page_zero_unannotated (content : String) (src : Option String) (i : Nat)
    (p : Int) (hp : p ≠ 0) :
    format_doc_part i (Document.mk content src (some 0)) =
      format_doc_part i (Document.mk content src none) ∧
    prepare_context [Document.mk content src (some 0)] =
      prepare_context [Document.mk content src none] ∧
    (∃ pre post, format_doc_part i (Document.mk content src (some p)) =
      pre ++ (" (Page " ++ toString p ++ ")") ++ post) := by
  refine ⟨rfl, rfl, ?_⟩
  refine ⟨"[Source " ++ toString i ++ " - " ++ (src.getD ("Document " ++ toString i)),
    "]:\n" ++ content ++ "\n", ?_⟩
  show "[Source " ++ toString i ++ " - " ++ (src.getD ("Document " ++ toString i)) ++
    (if p = 0 then "" else " (Page " ++ toString p ++ ")") ++ "]:\n" ++ content ++ "\n" = _
  rw [if_neg hp]
  simp only [String.append_assoc]

/-- Witness for C10 at page 7 of a concrete chunk. -/
theorem C10_page_zero_unannotated_witness :
    format_doc_part 1 (Document.mk "c" none (some 0)) =
      format_doc_part 1 (Document.mk "c" none none) ∧
    prepare_context [Document.mk "c" none (some 0)] =
      prepare_context [Document.mk "c" none none] ∧
    (∃ pre post, format_doc_part 1 (Document.mk "c" none (some 7)) =
      pre ++ (" (Page " ++ toString (7 : Int) ++ ")") ++ post) :=
  C10_page_zero_unannotated "c" none 1 7 (by decide)
